import Mathlib

/-!
Verification of the task-generator core: a shallow embedding of the
policy/seed-task data model (`app/models.py`), the CRUD layer
(`app/crud.py`), the generation executor (`app/services.py`) and the
scheduler/job registry (`app/scheduler.py`), together with proofs of the
behavioural properties stated in the system specification.

The persistence backend is modelled as an explicit `DB` state; exceptions
raised by the backend (query failure, commit failure) are modelled by the
`query_results` and `persist_fails` fields, and fallible operations return
`Option`.  The apscheduler cron library is an external collaborator and is
modelled by an arbitrary parse-success predicate `cronOk`.
-/

set_option autoImplicit false

namespace TaskGenerator

/-- models.TaskType: 'scheduled' or 'one_time'. -/
inductive TaskType where
  | SCHEDULED
  | ONE_TIME
deriving DecidableEq, Repr

/-- A SQL result cell: either a plain scalar or an enum-like value carrying an
underlying scalar (modelling Python values that have a `.value` attribute). -/
inductive SqlValue where
  | scalar (s : String)
  | enumLike (s : String)
deriving DecidableEq, Repr

/-- services.py enum normalization: `if hasattr(value, 'value'): value = value.value`. -/
def SqlValue.normalize : SqlValue → SqlValue
  | .scalar s => .scalar s
  | .enumLike s => .scalar s

/-- One row of query output: a key→value record. -/
abbrev Row := List (String × SqlValue)

/-- models.PolicyConfig (the fields the core reads). -/
structure PolicyConfig where
  policy_id : String
  data_source_type : String
  is_enabled : Bool
deriving DecidableEq, Repr

/-- models.PolicyTaskGenConfig (the fields the core reads). -/
structure PolicyTaskGenConfig where
  policy_id : String
  task_gen_sql : String
  cron_expression : String
  task_type : TaskType
deriving DecidableEq, Repr

/-- models.SeedTask (the fields the core reads or writes). -/
structure SeedTask where
  id : Nat
  policy_id : String
  task_type : TaskType
  task_params : Row
  is_consumed : Bool
deriving DecidableEq, Repr

/-- The persistence backend state.  `query_results` gives the backend's
response to a policy's query text (`none` models a query that raises:
syntax error, missing table, connectivity failure).  `persist_fails` tells
whether the commit of the seed task that would receive a given identity
raises (an environmental commit failure). -/
structure DB where
  policy_configs : List PolicyConfig
  task_gen_configs : List PolicyTaskGenConfig
  seed_tasks : List SeedTask
  next_task_id : Nat
  query_results : String → Option (List Row)
  persist_fails : Nat → Bool

/-- crud.get_policy_config: first PolicyConfig with the given policy_id. -/
def get_policy_config (db : DB) (policy_id : String) : Option PolicyConfig :=
  db.policy_configs.find? (fun p => p.policy_id == policy_id)

/-- crud.get_policy_task_gen_configs: one page of config rows,
`offset(skip).limit(limit)`; the Python defaults are skip=0, limit=100, and
every caller in scheduler.py uses the defaults, so a caller only ever sees
the first 100 rows of the store. -/
def get_policy_task_gen_configs (db : DB) (skip limit : Nat) :
    List PolicyTaskGenConfig :=
  (db.task_gen_configs.drop skip).take limit

/-- crud.get_policy_task_gen_config: first config with the given policy_id. -/
def get_policy_task_gen_config (db : DB) (policy_id : String) :
    Option PolicyTaskGenConfig :=
  db.task_gen_configs.find? (fun c => c.policy_id == policy_id)

/-- crud.get_pending_seed_tasks: unconsumed tasks, optionally restricted to one
policy (the query filters on `is_consumed == False`, then on the policy id). -/
def get_pending_seed_tasks (db : DB) (policy_id : Option String) : List SeedTask :=
  match policy_id with
  | some pid =>
      (db.seed_tasks.filter (fun t => !t.is_consumed)).filter
        (fun t => t.policy_id == pid)
  | none => db.seed_tasks.filter (fun t => !t.is_consumed)

/-- crud.create_seed_task: adds the task and commits; the backend assigns the
identity `db.next_task_id`.  A commit failure is an exception, modelled as
`none` (the session state is unchanged: the row was not committed). -/
def create_seed_task (db : DB) (policy_id : String) (task_type : TaskType)
    (task_params : Row) : Option (SeedTask × DB) :=
  if db.persist_fails db.next_task_id then none
  else
    let t : SeedTask :=
      { id := db.next_task_id, policy_id := policy_id, task_type := task_type,
        task_params := task_params, is_consumed := false }
    some (t, { db with seed_tasks := db.seed_tasks ++ [t],
                       next_task_id := db.next_task_id + 1 })

/-- crud.mark_seed_task_consumed: if a task with the id exists, set its
`is_consumed` flag to true and commit; return the task (or `none`). -/
def mark_seed_task_consumed (db : DB) (task_id : Nat) : Option SeedTask × DB :=
  match db.seed_tasks.find? (fun t => t.id == task_id) with
  | none => (none, db)
  | some t =>
      (some { t with is_consumed := true },
       { db with seed_tasks := (db.seed_tasks.map
          (fun u => if u.id == task_id then { u with is_consumed := true } else u)) })

/-- services.TaskGenerationService.execute_task_generation_sql: run the query
text; convert each row to a record, normalizing enum-like values to their
underlying scalar; any exception is caught and yields the empty result set. -/
def execute_task_generation_sql (db : DB) (task_gen_sql : String) : List Row :=
  match db.query_results task_gen_sql with
  | none => []
  | some rows => rows.map (fun r => r.map (fun kv => (kv.1, kv.2.normalize)))

/-- The row-persisting loop inside generate_seed_tasks: persist each row as a
seed task, one commit at a time.  Returns (number of rows persisted, final db
state, whether the loop finished without an exception).  When the commit of a
row raises, the rows already committed remain committed and the loop aborts. -/
def persist_rows (policy_id : String) (task_type : TaskType) :
    DB → List Row → Nat × DB × Bool
  | db, [] => (0, db, true)
  | db, r :: rs =>
    match create_seed_task db policy_id task_type r with
    | none => (0, db, false)
    | some (_, db') =>
      let rest := persist_rows policy_id task_type db' rs
      (rest.1 + 1, rest.2.1, rest.2.2)

/-- services.TaskGenerationService.generate_seed_tasks.  Re-checks enablement
(returning 0 with no writes when the policy is missing or disabled), runs the
query, persists each row individually, and returns the count — except that the
whole body sits in a `try`/`except` returning 0, so an exception raised while
persisting row K yields a return value of 0 even though rows 1..K-1 stay
committed. -/
def generate_seed_tasks (db : DB) (policy_config : PolicyTaskGenConfig) :
    Nat × DB :=
  match get_policy_config db policy_config.policy_id with
  | none => (0, db)
  | some policy =>
    if !policy.is_enabled then (0, db)
    else
      let results := execute_task_generation_sql db policy_config.task_gen_sql
      let res := persist_rows policy_config.policy_id policy_config.task_type db results
      if res.2.2 then (res.1, res.2.1) else (0, res.2.1)

/-- services.TaskGenerationService.handle_one_time_task_generation: only for
ONE_TIME configs (otherwise warn and return 0); generate, then — only when the
returned count is positive — fetch all pending tasks of the policy and mark
each consumed. -/
def handle_one_time_task_generation (db : DB) (policy_config : PolicyTaskGenConfig) :
    Nat × DB :=
  if policy_config.task_type ≠ TaskType.ONE_TIME then (0, db)
  else
    let res := generate_seed_tasks db policy_config
    if res.1 > 0 then
      let pending := get_pending_seed_tasks res.2 (some policy_config.policy_id)
      (res.1, pending.foldl (fun d t => (mark_seed_task_consumed d t.id).2) res.2)
    else res

/-! The scheduler (`app/scheduler.py`).  `Registry` is the state the scheduler
mutates: apscheduler's job store (`sched_jobs`, keyed by job id) and the
`TaskScheduler.jobs` dict mapping policy id to job id. -/

/-- One apscheduler job: its id, the policy id passed as callback argument,
and the cron expression of its trigger. -/
structure SchedJob where
  job_id : String
  policy_id : String
  cron : String
deriving DecidableEq, Repr

/-- The scheduler's mutable state: apscheduler's job store plus the
`jobs` policy_id → job_id dict (as an association list). -/
structure Registry where
  sched_jobs : List SchedJob
  jobs : List (String × String)
deriving DecidableEq, Repr

/-- The registry at scheduler construction: no jobs. -/
def Registry.empty : Registry := ⟨[], []⟩

/-- apscheduler BackgroundScheduler.get_job. -/
def scheduler_get_job (r : Registry) (job_id : String) : Option SchedJob :=
  r.sched_jobs.find? (fun j => j.job_id == job_id)

/-- apscheduler BackgroundScheduler.remove_job. -/
def scheduler_remove_job (r : Registry) (job_id : String) : Registry :=
  { r with sched_jobs := r.sched_jobs.filter (fun j => j.job_id != job_id) }

/-- apscheduler BackgroundScheduler.add_job with replace_existing=True: any
job with the same id is replaced. -/
def scheduler_add_job (r : Registry) (job_id policy_id cron : String) : Registry :=
  { r with sched_jobs :=
      (r.sched_jobs.filter (fun j => j.job_id != job_id)) ++ [⟨job_id, policy_id, cron⟩] }

/-- `self.jobs.get(policy_id)`. -/
def jobs_get (r : Registry) (policy_id : String) : Option String :=
  (r.jobs.find? (fun e => e.1 == policy_id)).map (fun e => e.2)

/-- `self.jobs[policy_id] = job_id` (dict update). -/
def jobs_set (r : Registry) (policy_id job_id : String) : Registry :=
  { r with jobs := (r.jobs.filter (fun e => e.1 != policy_id)) ++ [(policy_id, job_id)] }

/-- `self.jobs.pop(policy_id, None)` (dict removal). -/
def jobs_pop (r : Registry) (policy_id : String) : Registry :=
  { r with jobs := r.jobs.filter (fun e => e.1 != policy_id) }

/-- TaskScheduler.remove_policy_job: look the policy up in the dict; only when
both the dict entry and the scheduler job exist, remove the scheduler job and
pop the dict entry; otherwise do nothing. -/
def remove_policy_job (r : Registry) (policy_id : String) : Registry :=
  match jobs_get r policy_id with
  | none => r
  | some job_id =>
    match scheduler_get_job r job_id with
    | none => r
    | some _ => jobs_pop (scheduler_remove_job r job_id) policy_id

/-- TaskScheduler.add_policy_job.  ONE_TIME configs are not scheduled: return
true immediately.  Otherwise remove any existing job for the policy first,
then parse the cron expression (`cronOk` models the external library's parse
success; a parse failure raises, caught by the surrounding `except`, which
returns false), then add the apscheduler job and record the dict entry. -/
def add_policy_job (cronOk : String → Bool) (r : Registry)
    (cfg : PolicyTaskGenConfig) : Bool × Registry :=
  if cfg.task_type = TaskType.ONE_TIME then (true, r)
  else
    let r1 := remove_policy_job r cfg.policy_id
    let job_id := "policy_" ++ cfg.policy_id
    if cronOk cfg.cron_expression then
      (true,
       jobs_set (scheduler_add_job r1 job_id cfg.policy_id cfg.cron_expression)
         cfg.policy_id job_id)
    else (false, r1)

/-- TaskScheduler.get_job_count: `len(self.scheduler.get_jobs())`. -/
def get_job_count (r : Registry) : Nat := r.sched_jobs.length

/-- TaskScheduler.get_active_policies: `set(self.jobs.keys())`. -/
def get_active_policies (r : Registry) : List String := r.jobs.map (fun e => e.1)

/-- The enablement test used by the monitor loop:
`policy_config and policy_config.is_enabled`. -/
def policy_enabled (db : DB) (policy_id : String) : Bool :=
  match get_policy_config db policy_id with
  | some p => p.is_enabled
  | none => false

/-- The `should_be_active` set of one monitor cycle: among the config rows
the cycle loads — `crud.get_policy_task_gen_configs(db)` with the default
page, i.e. the first 100 rows — the policy ids whose PolicyConfig is enabled
and whose generation config has kind SCHEDULED. -/
def should_be_active (db : DB) : List String :=
  (((get_policy_task_gen_configs db 0 100).filter
      (fun p => policy_enabled db p.policy_id && p.task_type == TaskType.SCHEDULED)).map
    (fun p => p.policy_id)).dedup

/-- The add loop of one monitor cycle: for each detected new policy id, fetch
its first generation config and, when one exists, call add_policy_job. -/
def add_new_policies (cronOk : String → Bool) (db : DB) (l : List String)
    (r : Registry) : Registry :=
  l.foldl (fun reg pid =>
    match get_policy_task_gen_config db pid with
    | some cfg => (add_policy_job cronOk reg cfg).2
    | none => reg) r

/-- The remove loop of one monitor cycle. -/
def remove_policies (l : List String) (r : Registry) : Registry :=
  l.foldl (fun reg pid => remove_policy_job reg pid) r

/-- One cycle of TaskScheduler._monitor_policies: compute the current set and
the desired set (the latter from the first 100 config rows, crud's default
limit), add a job for each desired-but-inactive policy (via its first stored
generation config), then remove each active-but-undesired policy. -/
def monitor_cycle (cronOk : String → Bool) (db : DB) (r : Registry) : Registry :=
  let current_active := (get_active_policies r).dedup
  let desired := should_be_active db
  let new_policies := desired.filter (fun pid => !current_active.contains pid)
  let removed := current_active.filter (fun pid => !desired.contains pid)
  remove_policies removed (add_new_policies cronOk db new_policies r)

/-- Modelled from the spec: apscheduler's `CronTrigger.from_crontab` is an
external collaborator, not part of this repository; the spec only requires
that it "parses cronExpr as a 5-field cron expression" and raises on parse
failure.  We model parse success minimally as having exactly five
space-separated fields.  All registry theorems are parameterized over an
arbitrary parse predicate; this concrete one only instantiates witnesses and
counterexamples. -/
def crontab_five_fields (s : String) : Bool :=
  (s.data.filter (fun c => c == ' ')).length == 4

/-- Registry well-formedness: dict keys are unique; every dict entry's job id
follows the `policy_<id>` naming scheme; every dict entry has a matching job
in the scheduler's store; scheduler job ids are unique.  This holds in every
reachable registry state (see `Reachable.wf`). -/
def WF (r : Registry) : Prop :=
  (r.jobs.map (fun e => e.1)).Nodup ∧
  (∀ e ∈ r.jobs, e.2 = "policy_" ++ e.1) ∧
  (∀ e ∈ r.jobs, ∃ j ∈ r.sched_jobs, j.job_id = e.2) ∧
  (r.sched_jobs.map (fun j => j.job_id)).Nodup

instance (r : Registry) : Decidable (WF r) := by
  unfold WF; infer_instance

/-- The registry states the scheduler can actually be in: the empty registry,
closed under the three operations that mutate the registry. -/
inductive Reachable : Registry → Prop where
  | init : Reachable Registry.empty
  | add (cronOk : String → Bool) (cfg : PolicyTaskGenConfig) {r : Registry} :
      Reachable r → Reachable (add_policy_job cronOk r cfg).2
  | remove (policy_id : String) {r : Registry} :
      Reachable r → Reachable (remove_policy_job r policy_id)
  | cycle (cronOk : String → Bool) (db : DB) {r : Registry} :
      Reachable r → Reachable (monitor_cycle cronOk db r)

/-- The per-task update applied by mark_seed_task_consumed. -/
def set_consumed (task_id : Nat) (u : SeedTask) : SeedTask :=
  if u.id == task_id then { u with is_consumed := true } else u

/-- The dict entries registered for one policy identifier. -/
def jobs_for (r : Registry) (pid : String) : List (String × String) :=
  r.jobs.filter (fun e => e.1 == pid)

/-! Concrete states used by witnesses and counterexamples. -/

/-- An enabled SCHEDULED policy whose query yields two rows and whose second
row's commit raises (identity 1 fails to persist). -/
def db_c1 : DB :=
  { policy_configs := [⟨"p1", "postgres", true⟩]
    task_gen_configs := [⟨"p1", "SELECT a FROM t", "0 2 * * *", TaskType.SCHEDULED⟩]
    seed_tasks := []
    next_task_id := 0
    query_results := fun s =>
      if s == "SELECT a FROM t" then
        some [[("a", SqlValue.scalar ("1"))], [("a", SqlValue.enumLike ("2"))]]
      else none
    persist_fails := fun i => i == 1 }

def cfg_c1 : PolicyTaskGenConfig :=
  ⟨"p1", "SELECT a FROM t", "0 2 * * *", TaskType.SCHEDULED⟩

/-- An enabled ONE_TIME policy whose query yields three rows; persistence
never fails. -/
def db_c3 : DB :=
  { policy_configs := [⟨"imp", "postgres", true⟩]
    task_gen_configs := [⟨"imp", "SELECT b FROM u", "0 2 * * *", TaskType.ONE_TIME⟩]
    seed_tasks := []
    next_task_id := 0
    query_results := fun s =>
      if s == "SELECT b FROM u" then
        some [[("b", SqlValue.scalar ("1"))], [("b", SqlValue.scalar ("2"))],
              [("b", SqlValue.enumLike ("3"))]]
      else none
    persist_fails := fun _ => false }

def cfg_c3 : PolicyTaskGenConfig :=
  ⟨"imp", "SELECT b FROM u", "0 2 * * *", TaskType.ONE_TIME⟩

/-- A disabled policy. -/
def db_c4 : DB :=
  { policy_configs := [⟨"p4", "postgres", false⟩]
    task_gen_configs := [⟨"p4", "SELECT c FROM v", "0 2 * * *", TaskType.SCHEDULED⟩]
    seed_tasks := []
    next_task_id := 0
    query_results := fun _ => some [[("c", SqlValue.scalar ("1"))]]
    persist_fails := fun _ => false }

def cfg_c4 : PolicyTaskGenConfig :=
  ⟨"p4", "SELECT c FROM v", "0 2 * * *", TaskType.SCHEDULED⟩

/-- An enabled policy whose query raises (nonexistent table). -/
def db_c6 : DB :=
  { policy_configs := [⟨"p6", "postgres", true⟩]
    task_gen_configs :=
      [⟨"p6", "SELECT x FROM no_such_table", "0 2 * * *", TaskType.SCHEDULED⟩]
    seed_tasks := []
    next_task_id := 0
    query_results := fun _ => none
    persist_fails := fun _ => false }

def cfg_c6 : PolicyTaskGenConfig :=
  ⟨"p6", "SELECT x FROM no_such_table", "0 2 * * *", TaskType.SCHEDULED⟩

/-- A registry holding one scheduled job for policy p1. -/
def reg_c2 : Registry :=
  ⟨[⟨"policy_p1", "p1", "0 2 * * *"⟩], [("p1", "policy_p1")]⟩

/-- A SCHEDULED config for p1 whose cron expression does not parse. -/
def cfg_c2 : PolicyTaskGenConfig :=
  ⟨"p1", "SELECT a FROM t", "not-a-cron", TaskType.SCHEDULED⟩

/-- A SCHEDULED config with a valid 5-field cron expression. -/
def cfg_c5 : PolicyTaskGenConfig :=
  ⟨"p5", "SELECT a FROM t", "0 2 * * *", TaskType.SCHEDULED⟩

/-- A store with one enabled SCHEDULED policy whose cron does not parse. -/
def db_c8 : DB :=
  { policy_configs := [⟨"p8", "postgres", true⟩]
    task_gen_configs := [⟨"p8", "SELECT a FROM t", "not-a-cron", TaskType.SCHEDULED⟩]
    seed_tasks := []
    next_task_id := 0
    query_results := fun _ => none
    persist_fails := fun _ => false }

/-- A store with one enabled SCHEDULED policy with a valid cron expression. -/
def db_c8w : DB :=
  { policy_configs := [⟨"p8", "postgres", true⟩]
    task_gen_configs := [⟨"p8", "SELECT a FROM t", "0 2 * * *", TaskType.SCHEDULED⟩]
    seed_tasks := []
    next_task_id := 0
    query_results := fun _ => none
    persist_fails := fun _ => false }

/-- A ONE_TIME config (never scheduled). -/
def cfg_c10 : PolicyTaskGenConfig :=
  ⟨"p1", "SELECT a FROM t", "0 2 * * *", TaskType.ONE_TIME⟩

/-! Basic registry lemmas. -/

theorem mem_active_iff (r : Registry) (pid : String) :
    pid ∈ get_active_policies r ↔ ∃ e ∈ r.jobs, e.1 = pid := by
  simp [get_active_policies]

theorem jobs_get_none_iff (r : Registry) (pid : String) :
    jobs_get r pid = none ↔ ∀ e ∈ r.jobs, e.1 ≠ pid := by
  simp [jobs_get, List.find?_eq_none]

theorem jobs_get_some (r : Registry) (pid jid : String)
    (h : jobs_get r pid = some jid) : ∃ e ∈ r.jobs, e.1 = pid ∧ e.2 = jid := by
  unfold jobs_get at h
  rw [Option.map_eq_some'] at h
  obtain ⟨e, he, hev⟩ := h
  refine ⟨e, List.mem_of_find?_eq_some he, ?_, hev⟩
  have := List.find?_some he
  simpa using this

theorem scheduler_get_job_isSome (r : Registry) (jid : String)
    (h : ∃ j ∈ r.sched_jobs, j.job_id = jid) :
    ∃ j, scheduler_get_job r jid = some j := by
  rcases h with ⟨j, hj, hje⟩
  unfold scheduler_get_job
  cases hfind : r.sched_jobs.find? (fun j => j.job_id == jid) with
  | some j' => exact ⟨j', rfl⟩
  | none =>
      rw [List.find?_eq_none] at hfind
      exact absurd (by simpa using hje) (by simpa using hfind j hj)

/-- remove_policy_job either leaves the dict unchanged or filters out the
policy's entries; in the second case the scheduler store is filtered too. -/
theorem remove_policy_job_cases (r : Registry) (pid : String) :
    remove_policy_job r pid = r ∨
    ∃ jid, jobs_get r pid = some jid ∧
      remove_policy_job r pid =
        ⟨r.sched_jobs.filter (fun j => j.job_id != jid),
         r.jobs.filter (fun e => e.1 != pid)⟩ := by
  cases h1 : jobs_get r pid with
  | none =>
      refine Or.inl ?_
      unfold remove_policy_job
      simp only [h1]
  | some jid =>
      cases h2 : scheduler_get_job r jid with
      | none =>
          refine Or.inl ?_
          unfold remove_policy_job
          simp only [h1, h2]
      | some j =>
          refine Or.inr ⟨jid, rfl, ?_⟩
          unfold remove_policy_job
          simp only [h1, h2]
          rfl

theorem remove_policy_job_noop (r : Registry) (pid : String)
    (h : jobs_get r pid = none) : remove_policy_job r pid = r := by
  unfold remove_policy_job
  rw [h]

theorem active_remove_subset (r : Registry) (pid pid' : String)
    (h : pid' ∈ get_active_policies (remove_policy_job r pid)) :
    pid' ∈ get_active_policies r := by
  rcases remove_policy_job_cases r pid with hc | ⟨jid, _, hc⟩
  · rwa [hc] at h
  · rw [hc, mem_active_iff] at h
    rcases h with ⟨e, he, he1⟩
    exact (mem_active_iff r pid').2 ⟨e, (List.mem_filter.1 he).1, he1⟩

theorem active_remove_of_ne (r : Registry) (pid pid' : String) (hne : pid' ≠ pid)
    (h : pid' ∈ get_active_policies r) :
    pid' ∈ get_active_policies (remove_policy_job r pid) := by
  rcases remove_policy_job_cases r pid with hc | ⟨jid, _, hc⟩
  · rwa [hc]
  · rw [hc, mem_active_iff]
    rcases (mem_active_iff r pid').1 h with ⟨e, he, he1⟩
    exact ⟨e, List.mem_filter.2 ⟨he, by simp [he1, hne]⟩, he1⟩

theorem not_active_after_remove (r : Registry) (pid : String) (hwf : WF r) :
    pid ∉ get_active_policies (remove_policy_job r pid) := by
  obtain ⟨hnd, hnam, hcons, hsnd⟩ := hwf
  cases h1 : jobs_get r pid with
  | none =>
      rw [remove_policy_job_noop r pid h1, mem_active_iff]
      rw [jobs_get_none_iff] at h1
      rintro ⟨e, he, he1⟩
      exact h1 e he he1
  | some jid =>
      obtain ⟨e0, he0, he01, he02⟩ := jobs_get_some r pid jid h1
      obtain ⟨j, hj⟩ := scheduler_get_job_isSome r jid (by
        rcases hcons e0 he0 with ⟨j, hj, hje⟩
        exact ⟨j, hj, hje.trans he02⟩)
      unfold remove_policy_job
      simp only [h1, hj, mem_active_iff]
      rintro ⟨e, he, he1⟩
      simp only [jobs_pop, scheduler_remove_job, List.mem_filter, bne_iff_ne, ne_eq] at he
      exact he.2 he1

theorem policy_prefix_inj {a b : String}
    (h : "policy_" ++ a = "policy_" ++ b) : a = b := by
  have := congrArg String.data h
  simp only [String.data_append] at this
  exact String.ext (List.append_cancel_left this)

theorem WF_remove (r : Registry) (pid : String) (hwf : WF r) :
    WF (remove_policy_job r pid) := by
  rcases remove_policy_job_cases r pid with hc | ⟨jid, hget, hc⟩
  · rwa [hc]
  · obtain ⟨hnd, hnam, hcons, hsnd⟩ := hwf
    obtain ⟨e0, he0, he01, he02⟩ := jobs_get_some r pid jid hget
    have hjid : jid = "policy_" ++ pid := by
      rw [← he02, hnam e0 he0, he01]
    rw [hc]
    refine ⟨?_, ?_, ?_, ?_⟩
    · exact List.Nodup.sublist (List.Sublist.map _ (List.filter_sublist _)) hnd
    · intro e he
      exact hnam e (List.mem_filter.1 he).1
    · intro e he
      have hmem := (List.mem_filter.1 he).1
      have hne : e.1 ≠ pid := by
        have := (List.mem_filter.1 he).2
        simpa using this
      rcases hcons e hmem with ⟨j, hj, hje⟩
      refine ⟨j, List.mem_filter.2 ⟨hj, ?_⟩, hje⟩
      simp only [bne_iff_ne, ne_eq]
      intro hbad
      apply hne
      apply policy_prefix_inj
      rw [← hnam e hmem, ← hje, hbad, hjid]
    · exact List.Nodup.sublist (List.Sublist.map _ (List.filter_sublist _)) hsnd

theorem taskType_eq_scheduled {t : TaskType} (h : t ≠ TaskType.ONE_TIME) :
    t = TaskType.SCHEDULED := by
  cases t <;> simp_all

theorem add_policy_job_one_time (cronOk : String → Bool) (r : Registry)
    (cfg : PolicyTaskGenConfig) (h : cfg.task_type = TaskType.ONE_TIME) :
    add_policy_job cronOk r cfg = (true, r) := by
  unfold add_policy_job
  rw [if_pos h]

theorem add_policy_job_bad_cron (cronOk : String → Bool) (r : Registry)
    (cfg : PolicyTaskGenConfig) (h1 : cfg.task_type = TaskType.SCHEDULED)
    (h2 : cronOk cfg.cron_expression = false) :
    add_policy_job cronOk r cfg = (false, remove_policy_job r cfg.policy_id) := by
  unfold add_policy_job
  rw [if_neg (by simp [h1]), if_neg (by simp [h2])]

theorem add_policy_job_good (cronOk : String → Bool) (r : Registry)
    (cfg : PolicyTaskGenConfig) (h1 : cfg.task_type = TaskType.SCHEDULED)
    (h2 : cronOk cfg.cron_expression = true) :
    add_policy_job cronOk r cfg =
      (true,
       jobs_set (scheduler_add_job (remove_policy_job r cfg.policy_id)
           ("policy_" ++ cfg.policy_id) cfg.policy_id cfg.cron_expression)
         cfg.policy_id ("policy_" ++ cfg.policy_id)) := by
  unfold add_policy_job
  rw [if_neg (by simp [h1]), if_pos h2]

theorem active_add_self (cronOk : String → Bool) (r : Registry)
    (cfg : PolicyTaskGenConfig) (h1 : cfg.task_type = TaskType.SCHEDULED)
    (h2 : cronOk cfg.cron_expression = true) :
    cfg.policy_id ∈ get_active_policies (add_policy_job cronOk r cfg).2 := by
  rw [add_policy_job_good cronOk r cfg h1 h2]
  simp [get_active_policies, jobs_set, scheduler_add_job]

theorem active_add_other (cronOk : String → Bool) (r : Registry)
    (cfg : PolicyTaskGenConfig) (pid' : String) (hne : pid' ≠ cfg.policy_id) :
    pid' ∈ get_active_policies (add_policy_job cronOk r cfg).2 ↔
      pid' ∈ get_active_policies r := by
  cases h1 : cfg.task_type with
  | ONE_TIME => rw [add_policy_job_one_time cronOk r cfg h1]
  | SCHEDULED =>
    cases h2 : cronOk cfg.cron_expression with
    | false =>
        rw [add_policy_job_bad_cron cronOk r cfg h1 h2]
        exact ⟨active_remove_subset r _ _, active_remove_of_ne r _ _ hne⟩
    | true =>
        rw [add_policy_job_good cronOk r cfg h1 h2]
        constructor
        · intro h
          rcases (mem_active_iff _ _).1 h with ⟨e, he, he1⟩
          simp only [jobs_set, scheduler_add_job, List.mem_append, List.mem_filter,
            List.mem_singleton] at he
          rcases he with ⟨hmem, _⟩ | rfl
          · exact active_remove_subset r cfg.policy_id pid'
              ((mem_active_iff _ _).2 ⟨e, hmem, he1⟩)
          · exact (hne he1.symm).elim
        · intro h
          have h' := active_remove_of_ne r cfg.policy_id pid' hne h
          rcases (mem_active_iff _ _).1 h' with ⟨e, he, he1⟩
          refine (mem_active_iff _ _).2 ⟨e, ?_, he1⟩
          simp only [jobs_set, scheduler_add_job, List.mem_append, List.mem_filter]
          exact Or.inl ⟨he, by simp [he1, hne]⟩

theorem WF_add (cronOk : String → Bool) (r : Registry) (cfg : PolicyTaskGenConfig)
    (hwf : WF r) : WF (add_policy_job cronOk r cfg).2 := by
  cases h1 : cfg.task_type with
  | ONE_TIME =>
      rw [add_policy_job_one_time cronOk r cfg h1]
      exact hwf
  | SCHEDULED =>
    cases h2 : cronOk cfg.cron_expression with
    | false =>
        rw [add_policy_job_bad_cron cronOk r cfg h1 h2]
        exact WF_remove r _ hwf
    | true =>
        rw [add_policy_job_good cronOk r cfg h1 h2]
        obtain ⟨hnd, hnam, hcons, hsnd⟩ := WF_remove r cfg.policy_id hwf
        refine ⟨?_, ?_, ?_, ?_⟩
        · simp only [jobs_set, scheduler_add_job, List.map_append, List.map_cons,
            List.map_nil, List.nodup_append]
          refine ⟨List.Nodup.sublist (List.Sublist.map _ (List.filter_sublist _)) hnd,
            List.nodup_singleton _, ?_⟩
          intro a ha hb
          simp only [List.mem_singleton] at hb
          subst hb
          simp only [List.mem_map, List.mem_filter, bne_iff_ne, ne_eq] at ha
          rcases ha with ⟨e, ⟨_, hne⟩, he1⟩
          exact hne he1
        · intro e he
          simp only [jobs_set, scheduler_add_job, List.mem_append, List.mem_filter,
            List.mem_singleton] at he
          rcases he with ⟨hmem, _⟩ | rfl
          · exact hnam e hmem
          · rfl
        · intro e he
          simp only [jobs_set, scheduler_add_job, List.mem_append, List.mem_filter,
            List.mem_singleton] at he
          rcases he with ⟨hmem, hkey⟩ | rfl
          · rcases hcons e hmem with ⟨j, hj, hje⟩
            refine ⟨j, ?_, hje⟩
            simp only [jobs_set, scheduler_add_job, List.mem_append, List.mem_filter,
              bne_iff_ne, ne_eq]
            refine Or.inl ⟨hj, ?_⟩
            intro hbad
            have : e.1 = cfg.policy_id :=
              policy_prefix_inj (by rw [← hnam e hmem, ← hje, hbad])
            simp only [bne_iff_ne, ne_eq] at hkey
            exact hkey this
          · exact ⟨⟨"policy_" ++ cfg.policy_id, cfg.policy_id, cfg.cron_expression⟩,
              by simp [jobs_set, scheduler_add_job], rfl⟩
        · simp only [jobs_set, scheduler_add_job, List.map_append, List.map_cons,
            List.map_nil, List.nodup_append]
          refine ⟨List.Nodup.sublist (List.Sublist.map _ (List.filter_sublist _)) hsnd,
            List.nodup_singleton _, ?_⟩
          intro a ha hb
          simp only [List.mem_singleton] at hb
          subst hb
          simp only [List.mem_map, List.mem_filter, bne_iff_ne, ne_eq] at ha
          rcases ha with ⟨j, ⟨_, hne⟩, hj1⟩
          exact hne hj1

theorem filter_key_length_le_one (pid : String) :
    ∀ l : List (String × String), (l.map (fun e => e.1)).Nodup →
      (l.filter (fun e => e.1 == pid)).length ≤ 1 := by
  intro l
  induction l with
  | nil => intro _; simp
  | cons a l ih =>
      intro h
      simp only [List.map_cons, List.nodup_cons] at h
      rw [List.filter_cons]
      by_cases ha : a.1 = pid
      · rw [if_pos (by simpa using ha)]
        have hnil : l.filter (fun e => e.1 == pid) = [] := by
          rw [List.filter_eq_nil_iff]
          intro e he
          simp only [beq_iff_eq]
          intro hbad
          exact h.1 (List.mem_map.2 ⟨e, he, (hbad.trans ha.symm)⟩)
        simp [hnil]
      · rw [if_neg (by simpa using ha)]
        exact ih h.2

theorem jobs_for_le_one_of_nodup (r : Registry) (pid : String)
    (h : (r.jobs.map (fun e => e.1)).Nodup) : (jobs_for r pid).length ≤ 1 :=
  filter_key_length_le_one pid r.jobs h

theorem remove_sched_sublist (r : Registry) (pid : String) :
    (remove_policy_job r pid).sched_jobs.Sublist r.sched_jobs := by
  rcases remove_policy_job_cases r pid with hc | ⟨jid, _, hc⟩
  · rw [hc]
  · rw [hc]
    exact List.filter_sublist _

theorem remove_jobs_sublist (r : Registry) (pid : String) :
    (remove_policy_job r pid).jobs.Sublist r.jobs := by
  rcases remove_policy_job_cases r pid with hc | ⟨jid, _, hc⟩
  · rw [hc]
  · rw [hc]
    exact List.filter_sublist _

theorem get_job_count_remove_le (r : Registry) (pid : String) :
    get_job_count (remove_policy_job r pid) ≤ get_job_count r :=
  List.Sublist.length_le (remove_sched_sublist r pid)

theorem get_job_count_add_le (cronOk : String → Bool) (r : Registry)
    (cfg : PolicyTaskGenConfig) :
    get_job_count (add_policy_job cronOk r cfg).2 ≤ get_job_count r + 1 := by
  cases h1 : cfg.task_type with
  | ONE_TIME =>
      rw [add_policy_job_one_time cronOk r cfg h1]
      exact Nat.le_succ _
  | SCHEDULED =>
    cases h2 : cronOk cfg.cron_expression with
    | false =>
        rw [add_policy_job_bad_cron cronOk r cfg h1 h2]
        exact (get_job_count_remove_le r _).trans (Nat.le_succ _)
    | true =>
        rw [add_policy_job_good cronOk r cfg h1 h2]
        show ((remove_policy_job r cfg.policy_id).sched_jobs.filter _ ++ _).length ≤ _
        rw [List.length_append]
        simp only [List.length_singleton]
        have h3 := (List.length_filter_le (fun j => j.job_id != "policy_" ++ cfg.policy_id)
          (remove_policy_job r cfg.policy_id).sched_jobs).trans
          (List.Sublist.length_le (remove_sched_sublist r cfg.policy_id))
        exact Nat.add_le_add_right h3 1

theorem get_job_count_add_le_of_existing (cronOk : String → Bool) (r : Registry)
    (cfg : PolicyTaskGenConfig)
    (hex : ∃ j ∈ r.sched_jobs, j.job_id = "policy_" ++ cfg.policy_id) :
    get_job_count (add_policy_job cronOk r cfg).2 ≤ get_job_count r := by
  cases h1 : cfg.task_type with
  | ONE_TIME =>
      rw [add_policy_job_one_time cronOk r cfg h1]
  | SCHEDULED =>
    cases h2 : cronOk cfg.cron_expression with
    | false =>
        rw [add_policy_job_bad_cron cronOk r cfg h1 h2]
        exact get_job_count_remove_le r _
    | true =>
        rw [add_policy_job_good cronOk r cfg h1 h2]
        show ((remove_policy_job r cfg.policy_id).sched_jobs.filter _ ++ _).length ≤ _
        rw [List.length_append]
        simp only [List.length_singleton]
        have hsub : ((remove_policy_job r cfg.policy_id).sched_jobs.filter
            (fun j => j.job_id != "policy_" ++ cfg.policy_id)).Sublist
            (r.sched_jobs.filter (fun j => j.job_id != "policy_" ++ cfg.policy_id)) :=
          List.Sublist.filter _ (remove_sched_sublist r cfg.policy_id)
        have hlt : (r.sched_jobs.filter
            (fun j => j.job_id != "policy_" ++ cfg.policy_id)).length <
            r.sched_jobs.length := by
          refine List.length_filter_lt_length_iff_exists.2 ?_
          rcases hex with ⟨j, hj, hje⟩
          exact ⟨j, hj, by simp [hje]⟩
        have := (List.Sublist.length_le hsub).trans_lt hlt
        show _ + 1 ≤ r.sched_jobs.length
        omega

/-! Monitor-cycle fold lemmas. -/

theorem get_tgc_policy_id (db : DB) (pid : String) (cfg : PolicyTaskGenConfig)
    (h : get_policy_task_gen_config db pid = some cfg) : cfg.policy_id = pid := by
  have := List.find?_some h
  simpa using this

theorem add_new_policies_nil (cronOk : String → Bool) (db : DB) (r : Registry) :
    add_new_policies cronOk db [] r = r := rfl

theorem add_new_policies_cons (cronOk : String → Bool) (db : DB) (a : String)
    (l : List String) (r : Registry) :
    add_new_policies cronOk db (a :: l) r =
      add_new_policies cronOk db l
        (match get_policy_task_gen_config db a with
         | some cfg => (add_policy_job cronOk r cfg).2
         | none => r) := rfl

theorem remove_policies_nil (r : Registry) : remove_policies [] r = r := rfl

theorem remove_policies_cons (a : String) (l : List String) (r : Registry) :
    remove_policies (a :: l) r = remove_policies l (remove_policy_job r a) := rfl

theorem WF_add_new (cronOk : String → Bool) (db : DB) :
    ∀ (l : List String) (r : Registry), WF r →
      WF (add_new_policies cronOk db l r) := by
  intro l
  induction l with
  | nil => intro r h; exact h
  | cons a l ih =>
      intro r h
      rw [add_new_policies_cons]
      cases hg : get_policy_task_gen_config db a with
      | none => exact ih r h
      | some cfg => exact ih _ (WF_add cronOk r cfg h)

theorem WF_remove_fold : ∀ (l : List String) (r : Registry), WF r →
    WF (remove_policies l r) := by
  intro l
  induction l with
  | nil => intro r h; exact h
  | cons a l ih =>
      intro r h
      rw [remove_policies_cons]
      exact ih _ (WF_remove r a h)

theorem WF_cycle (cronOk : String → Bool) (db : DB) (r : Registry) (hwf : WF r) :
    WF (monitor_cycle cronOk db r) :=
  WF_remove_fold _ _ (WF_add_new cronOk db _ r hwf)

/-- Every reachable registry state is well-formed. -/
theorem Reachable.wf {r : Registry} (h : Reachable r) : WF r := by
  induction h with
  | init => decide
  | add cronOk cfg _ ih => exact WF_add cronOk _ cfg ih
  | remove pid _ ih => exact WF_remove _ pid ih
  | cycle cronOk db _ ih => exact WF_cycle cronOk db _ ih

theorem active_add_new_other (cronOk : String → Bool) (db : DB) :
    ∀ (l : List String) (r : Registry) (pid : String), pid ∉ l →
      (pid ∈ get_active_policies (add_new_policies cronOk db l r) ↔
        pid ∈ get_active_policies r) := by
  intro l
  induction l with
  | nil => intro r pid _; exact Iff.rfl
  | cons a l ih =>
      intro r pid hpid
      rw [List.mem_cons, not_or] at hpid
      rw [add_new_policies_cons]
      cases hg : get_policy_task_gen_config db a with
      | none => exact ih r pid hpid.2
      | some cfg =>
          have hcfg := get_tgc_policy_id db a cfg hg
          exact (ih _ pid hpid.2).trans
            (active_add_other cronOk r cfg pid (by rw [hcfg]; exact hpid.1))

theorem active_add_new_mem (cronOk : String → Bool) (db : DB) :
    ∀ (l : List String) (r : Registry) (pid : String), l.Nodup → pid ∈ l →
      (∃ cfg, get_policy_task_gen_config db pid = some cfg ∧
        cfg.task_type = TaskType.SCHEDULED ∧ cronOk cfg.cron_expression = true) →
      pid ∈ get_active_policies (add_new_policies cronOk db l r) := by
  intro l
  induction l with
  | nil => intro r pid _ h; exact absurd h (List.not_mem_nil pid)
  | cons a l ih =>
      intro r pid hnd hmem hcfg
      rw [List.nodup_cons] at hnd
      rw [add_new_policies_cons]
      rcases List.mem_cons.1 hmem with rfl | hmem'
      · rcases hcfg with ⟨cfg, hg, htype, hok⟩
        rw [hg]
        have hid := get_tgc_policy_id db pid cfg hg
        rw [active_add_new_other cronOk db l _ pid hnd.1]
        have := active_add_self cronOk r cfg htype hok
        rwa [hid] at this
      · cases hg : get_policy_task_gen_config db a with
        | none => exact ih r pid hnd.2 hmem' hcfg
        | some cfg => exact ih _ pid hnd.2 hmem' hcfg

/-- A policy id that is inactive and whose first stored config would not
register (missing, ONE_TIME, or unparseable cron) stays inactive through the
add loop. -/
theorem active_add_new_not_registered (cronOk : String → Bool) (db : DB) :
    ∀ (l : List String) (r : Registry) (pid : String),
      (∀ cfg, get_policy_task_gen_config db pid = some cfg →
        cfg.task_type = TaskType.ONE_TIME ∨ cronOk cfg.cron_expression = false) →
      pid ∉ get_active_policies r →
      pid ∉ get_active_policies (add_new_policies cronOk db l r) := by
  intro l
  induction l with
  | nil => intro r pid _ h; exact h
  | cons a l ih =>
      intro r pid hbadcfg hnact
      rw [add_new_policies_cons]
      by_cases hap : a = pid
      · subst hap
        cases hg : get_policy_task_gen_config db a with
        | none => exact ih r a hbadcfg hnact
        | some cfg =>
            cases htt : cfg.task_type with
            | ONE_TIME =>
                refine ih _ a hbadcfg ?_
                show a ∉ get_active_policies (add_policy_job cronOk r cfg).2
                rw [add_policy_job_one_time cronOk r cfg htt]
                exact hnact
            | SCHEDULED =>
                rcases hbadcfg cfg hg with hone | hbad
                · rw [htt] at hone
                  exact absurd hone (by simp)
                · refine ih _ a hbadcfg ?_
                  show a ∉ get_active_policies (add_policy_job cronOk r cfg).2
                  rw [add_policy_job_bad_cron cronOk r cfg htt hbad]
                  intro hmem
                  exact hnact (active_remove_subset r cfg.policy_id a hmem)
      · cases hg : get_policy_task_gen_config db a with
        | none => exact ih r pid hbadcfg hnact
        | some cfg =>
            refine ih _ pid hbadcfg ?_
            show pid ∉ get_active_policies (add_policy_job cronOk r cfg).2
            have hcfg := get_tgc_policy_id db a cfg hg
            rw [active_add_other cronOk r cfg pid (by rw [hcfg]; exact fun he => hap he.symm)]
            exact hnact

theorem active_remove_fold_subset :
    ∀ (l : List String) (r : Registry) (pid : String),
      pid ∈ get_active_policies (remove_policies l r) →
      pid ∈ get_active_policies r := by
  intro l
  induction l with
  | nil => intro r pid h; exact h
  | cons a l ih =>
      intro r pid h
      rw [remove_policies_cons] at h
      exact active_remove_subset r a pid (ih _ pid h)

theorem active_remove_fold_other :
    ∀ (l : List String) (r : Registry) (pid : String), pid ∉ l →
      (pid ∈ get_active_policies (remove_policies l r) ↔
        pid ∈ get_active_policies r) := by
  intro l
  induction l with
  | nil => intro r pid _; exact Iff.rfl
  | cons a l ih =>
      intro r pid hpid
      rw [List.mem_cons, not_or] at hpid
      rw [remove_policies_cons]
      refine (ih _ pid hpid.2).trans ⟨active_remove_subset r a pid, ?_⟩
      exact active_remove_of_ne r a pid hpid.1

theorem active_remove_fold_mem :
    ∀ (l : List String) (r : Registry) (pid : String), WF r → pid ∈ l →
      pid ∉ get_active_policies (remove_policies l r) := by
  intro l
  induction l with
  | nil => intro r pid _ h; exact absurd h (List.not_mem_nil pid)
  | cons a l ih =>
      intro r pid hwf hmem
      rw [remove_policies_cons]
      rcases List.mem_cons.1 hmem with rfl | hmem'
      · intro hbad
        exact not_active_after_remove r pid hwf (active_remove_fold_subset l _ pid hbad)
      · exact ih _ pid (WF_remove r a hwf) hmem'

/-! Generation-executor lemmas. -/

theorem create_seed_task_some (db : DB) (pid : String) (tt : TaskType) (params : Row)
    (t : SeedTask) (db' : DB)
    (h : create_seed_task db pid tt params = some (t, db')) :
    db'.seed_tasks = db.seed_tasks ++ [t] ∧ t.policy_id = pid ∧ t.task_type = tt ∧
      t.is_consumed = false := by
  unfold create_seed_task at h
  by_cases hf : db.persist_fails db.next_task_id
  · rw [if_pos hf] at h
    exact absurd h (by simp)
  · rw [if_neg hf] at h
    simp only [Option.some_inj, Prod.mk.injEq] at h
    obtain ⟨ht, hdb⟩ := h
    subst ht
    subst hdb
    exact ⟨rfl, rfl, rfl, rfl⟩

theorem persist_rows_cons_none (pid : String) (tt : TaskType) (db : DB) (r : Row)
    (rs : List Row) (h : create_seed_task db pid tt r = none) :
    persist_rows pid tt db (r :: rs) = (0, db, false) := by
  unfold persist_rows
  rw [h]

theorem persist_rows_cons_some (pid : String) (tt : TaskType) (db : DB) (r : Row)
    (rs : List Row) (t : SeedTask) (db' : DB)
    (h : create_seed_task db pid tt r = some (t, db')) :
    persist_rows pid tt db (r :: rs) =
      ((persist_rows pid tt db' rs).1 + 1, (persist_rows pid tt db' rs).2.1,
       (persist_rows pid tt db' rs).2.2) := by
  simp only [persist_rows, h]

/-- Row-at-a-time persistence: the final db extends the initial seed-task list
by exactly as many new tasks as the returned count (the committed prefix stays
committed even when a later row's commit raised); the new tasks carry the
policy id and kind and are unconsumed; and when no commit raised, the count
equals the number of result rows. -/
theorem persist_rows_spec (pid : String) (tt : TaskType) :
    ∀ (rows : List Row) (db : DB),
      ∃ newTasks : List SeedTask,
        (persist_rows pid tt db rows).2.1.seed_tasks = db.seed_tasks ++ newTasks ∧
        newTasks.length = (persist_rows pid tt db rows).1 ∧
        (∀ t ∈ newTasks, t.policy_id = pid ∧ t.task_type = tt ∧
          t.is_consumed = false) ∧
        ((persist_rows pid tt db rows).2.2 = true →
          (persist_rows pid tt db rows).1 = rows.length) := by
  intro rows
  induction rows with
  | nil =>
      intro db
      exact ⟨[], by simp [persist_rows], by simp [persist_rows], by simp,
        by simp [persist_rows]⟩
  | cons r rs ih =>
      intro db
      cases hc : create_seed_task db pid tt r with
      | none =>
          rw [persist_rows_cons_none pid tt db r rs hc]
          exact ⟨[], by simp, by simp, by simp, by simp⟩
      | some p =>
          obtain ⟨t, db'⟩ := p
          obtain ⟨hseq, hpid, htt, hcons⟩ := create_seed_task_some db pid tt r t db' hc
          rw [persist_rows_cons_some pid tt db r rs t db' hc]
          obtain ⟨new', ih1, ih2, ih3, ih4⟩ := ih db'
          refine ⟨t :: new', ?_, ?_, ?_, ?_⟩
          · rw [ih1, hseq, List.append_assoc]
            rfl
          · simp [← ih2]
          · intro u hu
            rcases List.mem_cons.1 hu with rfl | hu'
            · exact ⟨hpid, htt, hcons⟩
            · exact ih3 u hu'
          · intro hok
            have := ih4 hok
            simp [this]

theorem generate_seed_tasks_disabled (db : DB) (cfg : PolicyTaskGenConfig)
    (h : ∀ p, get_policy_config db cfg.policy_id = some p → p.is_enabled = false) :
    generate_seed_tasks db cfg = (0, db) := by
  unfold generate_seed_tasks
  cases hg : get_policy_config db cfg.policy_id with
  | none => rfl
  | some p =>
      show (if !p.is_enabled then ((0 : Nat), db) else _) = _
      rw [h p hg]
      rfl

theorem generate_seed_tasks_enabled (db : DB) (cfg : PolicyTaskGenConfig)
    (p : PolicyConfig) (hg : get_policy_config db cfg.policy_id = some p)
    (he : p.is_enabled = true) :
    generate_seed_tasks db cfg =
      (if (persist_rows cfg.policy_id cfg.task_type db
            (execute_task_generation_sql db cfg.task_gen_sql)).2.2
       then ((persist_rows cfg.policy_id cfg.task_type db
               (execute_task_generation_sql db cfg.task_gen_sql)).1,
             (persist_rows cfg.policy_id cfg.task_type db
               (execute_task_generation_sql db cfg.task_gen_sql)).2.1)
       else (0, (persist_rows cfg.policy_id cfg.task_type db
               (execute_task_generation_sql db cfg.task_gen_sql)).2.1)) := by
  unfold generate_seed_tasks
  rw [hg]
  show (if !p.is_enabled then ((0 : Nat), db) else _) = _
  rw [he]
  rfl

theorem execute_sql_failure (db : DB) (sql : String)
    (h : db.query_results sql = none) :
    execute_task_generation_sql db sql = [] := by
  unfold execute_task_generation_sql
  rw [h]

/-! Mark-consumed lemmas. -/

theorem set_consumed_id (task_id : Nat) (u : SeedTask) :
    (set_consumed task_id u).id = u.id := by
  unfold set_consumed
  by_cases h : u.id == task_id
  · rw [if_pos h]
  · rw [if_neg h]

theorem set_consumed_policy (task_id : Nat) (u : SeedTask) :
    (set_consumed task_id u).policy_id = u.policy_id := by
  unfold set_consumed
  by_cases h : u.id == task_id
  · rw [if_pos h]
  · rw [if_neg h]

theorem set_consumed_idem (task_id : Nat) (u : SeedTask) :
    set_consumed task_id (set_consumed task_id u) = set_consumed task_id u := by
  unfold set_consumed
  by_cases h : u.id == task_id
  · rw [if_pos h]
    rw [if_pos (by simpa using h)]
  · rw [if_neg h, if_neg h]

theorem set_consumed_of_consumed (task_id : Nat) (u : SeedTask)
    (h : u.is_consumed = true) : set_consumed task_id u = u := by
  unfold set_consumed
  by_cases hid : u.id == task_id
  · rw [if_pos hid]
    cases u
    simp_all
  · rw [if_neg hid]

/-- The seed-task list after mark_seed_task_consumed is always the pointwise
`set_consumed` map of the list before (when the id is absent, the map is the
identity). -/
theorem mark_state_eq_map (db : DB) (task_id : Nat) :
    (mark_seed_task_consumed db task_id).2.seed_tasks =
      db.seed_tasks.map (set_consumed task_id) := by
  unfold mark_seed_task_consumed
  cases hf : db.seed_tasks.find? (fun t => t.id == task_id) with
  | some t => rfl
  | none =>
      rw [List.find?_eq_none] at hf
      show db.seed_tasks = _
      symm
      have h : ∀ u ∈ db.seed_tasks, set_consumed task_id u = id u := by
        intro u hu
        unfold set_consumed
        rw [if_neg (by simpa using hf u hu)]
        rfl
      rw [List.map_congr_left h, List.map_id]

theorem mark_other_fields (db : DB) (task_id : Nat) :
    (mark_seed_task_consumed db task_id).2.policy_configs = db.policy_configs ∧
    (mark_seed_task_consumed db task_id).2.task_gen_configs = db.task_gen_configs ∧
    (mark_seed_task_consumed db task_id).2.next_task_id = db.next_task_id := by
  unfold mark_seed_task_consumed
  cases hf : db.seed_tasks.find? (fun t => t.id == task_id) with
  | some t => exact ⟨rfl, rfl, rfl⟩
  | none => exact ⟨rfl, rfl, rfl⟩

/-- Consumption survives marking: a flag that is true stays true, ids and
policy ids are unchanged (stated positionally via Forall₂). -/
theorem mark_monotone (db : DB) (task_id : Nat) :
    List.Forall₂
      (fun a b => a.id = b.id ∧ a.policy_id = b.policy_id ∧
        (a.is_consumed = true → b.is_consumed = true))
      db.seed_tasks (mark_seed_task_consumed db task_id).2.seed_tasks := by
  rw [mark_state_eq_map]
  rw [List.forall₂_map_right_iff]
  rw [List.forall₂_same]
  intro u _
  refine ⟨(set_consumed_id task_id u).symm, (set_consumed_policy task_id u).symm, ?_⟩
  intro h
  rw [set_consumed_of_consumed task_id u h]
  exact h

theorem find?_id_map_set_consumed (l : List SeedTask) (task_id : Nat) :
    (l.map (set_consumed task_id)).find? (fun t => t.id == task_id) =
      Option.map (set_consumed task_id) (l.find? (fun t => t.id == task_id)) := by
  rw [List.find?_map]
  have h : ((fun t : SeedTask => t.id == task_id) ∘ set_consumed task_id) =
      (fun t : SeedTask => t.id == task_id) := by
    funext u
    simp [Function.comp, set_consumed_id]
  rw [h]

theorem mark_eq_of_find?_none (d : DB) (task_id : Nat)
    (h : d.seed_tasks.find? (fun t => t.id == task_id) = none) :
    mark_seed_task_consumed d task_id = (none, d) := by
  unfold mark_seed_task_consumed
  rw [h]

theorem mark_eq_of_find?_some (d : DB) (task_id : Nat) (t : SeedTask)
    (h : d.seed_tasks.find? (fun t => t.id == task_id) = some t) :
    mark_seed_task_consumed d task_id =
      (some { t with is_consumed := true },
       { d with seed_tasks := d.seed_tasks.map (set_consumed task_id) }) := by
  unfold mark_seed_task_consumed
  rw [h]
  rfl

/-- mark_seed_task_consumed is idempotent per task id: repeating it returns
the same task and leaves the database in the same state. -/
theorem mark_idempotent (db : DB) (task_id : Nat) :
    mark_seed_task_consumed (mark_seed_task_consumed db task_id).2 task_id =
      mark_seed_task_consumed db task_id := by
  cases hf : db.seed_tasks.find? (fun t => t.id == task_id) with
  | none =>
      rw [mark_eq_of_find?_none db task_id hf]
      exact mark_eq_of_find?_none db task_id hf
  | some t =>
      have hid : (t.id == task_id) = true := by
        simpa using List.find?_some hf
      rw [mark_eq_of_find?_some db task_id t hf]
      show mark_seed_task_consumed
          { db with seed_tasks := db.seed_tasks.map (set_consumed task_id) } task_id = _
      have hf1 : (({ db with seed_tasks := db.seed_tasks.map (set_consumed task_id) } :
          DB).seed_tasks.find? (fun u => u.id == task_id)) =
          some { t with is_consumed := true } := by
        show (db.seed_tasks.map (set_consumed task_id)).find? _ = _
        rw [find?_id_map_set_consumed, hf]
        show some (set_consumed task_id t) = _
        unfold set_consumed
        rw [if_pos hid]
      rw [mark_eq_of_find?_some _ task_id _ hf1]
      have hmap2 : (db.seed_tasks.map (set_consumed task_id)).map
          (set_consumed task_id) = db.seed_tasks.map (set_consumed task_id) := by
        rw [List.map_map]
        exact List.map_congr_left (fun u _ => set_consumed_idem task_id u)
      show (some { t with is_consumed := true },
            ({ db with seed_tasks := ((db.seed_tasks.map (set_consumed task_id)).map
                (set_consumed task_id)) } : DB)) =
           (some { t with is_consumed := true },
            ({ db with seed_tasks := db.seed_tasks.map (set_consumed task_id) } : DB))
      rw [hmap2]

/-- Folding mark_seed_task_consumed over a set of task ids covering every
pending task of policy p leaves no pending task of p. -/
theorem fold_mark_clears_pending (p : String) :
    ∀ (ts : List SeedTask) (d : DB),
      (∀ u ∈ d.seed_tasks, (!u.is_consumed && u.policy_id == p) = true →
        u.id ∈ ts.map (fun t => t.id)) →
      ∀ u ∈ (ts.foldl (fun acc t => (mark_seed_task_consumed acc t.id).2) d).seed_tasks,
        (!u.is_consumed && u.policy_id == p) = false := by
  intro ts
  induction ts with
  | nil =>
      intro d h u hu
      cases hpred : (!u.is_consumed && u.policy_id == p) with
      | false => rfl
      | true => exact absurd (h u hu hpred) (by simp)
  | cons t ts ih =>
      intro d h u hu
      rw [List.foldl_cons] at hu
      refine ih (mark_seed_task_consumed d t.id).2 ?_ u hu
      intro v hv hpend
      rw [mark_state_eq_map] at hv
      rcases List.mem_map.1 hv with ⟨v0, hv0, rfl⟩
      by_cases hvid : (v0.id == t.id)
      · exfalso
        unfold set_consumed at hpend
        rw [if_pos hvid] at hpend
        simp at hpend
      · unfold set_consumed at hpend ⊢
        rw [if_neg hvid] at hpend ⊢
        have hcov := h v0 hv0 hpend
        simp only [List.map_cons, List.mem_cons] at hcov
        rcases hcov with heq | hmem
        · exact absurd (by simpa using heq) hvid
        · exact hmem

/-- Marking every currently pending task of a policy consumed leaves that
policy with no pending tasks. -/
theorem pending_cleared (d : DB) (pid : String) :
    get_pending_seed_tasks
      ((get_pending_seed_tasks d (some pid)).foldl
        (fun acc t => (mark_seed_task_consumed acc t.id).2) d) (some pid) = [] := by
  have hcov : ∀ u ∈ d.seed_tasks, (!u.is_consumed && u.policy_id == pid) = true →
      u.id ∈ (get_pending_seed_tasks d (some pid)).map (fun t => t.id) := by
    intro u hu hp
    rw [Bool.and_eq_true] at hp
    refine List.mem_map.2 ⟨u, ?_, rfl⟩
    unfold get_pending_seed_tasks
    exact List.mem_filter.2 ⟨List.mem_filter.2 ⟨hu, hp.1⟩, hp.2⟩
  have hall := fold_mark_clears_pending pid (get_pending_seed_tasks d (some pid)) d hcov
  unfold get_pending_seed_tasks
  rw [List.filter_eq_nil_iff]
  intro u hu hbad
  have hmem := (List.mem_filter.1 hu).1
  have hunc := (List.mem_filter.1 hu).2
  have := hall u hmem
  rw [hunc, hbad] at this
  exact absurd this (by simp)

/-- handle_one_time_task_generation on a ONE_TIME config, written without the
guard. -/
theorem handle_one_time_eq (db : DB) (cfg : PolicyTaskGenConfig)
    (h : cfg.task_type = TaskType.ONE_TIME) :
    handle_one_time_task_generation db cfg =
      (if (generate_seed_tasks db cfg).1 > 0 then
        ((generate_seed_tasks db cfg).1,
         (get_pending_seed_tasks (generate_seed_tasks db cfg).2
            (some cfg.policy_id)).foldl
           (fun d t => (mark_seed_task_consumed d t.id).2)
           (generate_seed_tasks db cfg).2)
      else generate_seed_tasks db cfg) := by
  unfold handle_one_time_task_generation
  rw [if_neg (by simp [h])]

/-- Generation only ever appends seed tasks, and the appended tasks are
created unconsumed. -/
theorem generate_seed_tasks_append (db : DB) (cfg : PolicyTaskGenConfig) :
    ∃ newTasks : List SeedTask,
      (generate_seed_tasks db cfg).2.seed_tasks = db.seed_tasks ++ newTasks ∧
      ∀ t ∈ newTasks, t.is_consumed = false := by
  cases hg : get_policy_config db cfg.policy_id with
  | none =>
      refine ⟨[], ?_, by simp⟩
      unfold generate_seed_tasks
      rw [hg]
      simp
  | some p =>
      by_cases he : p.is_enabled = true
      · rw [generate_seed_tasks_enabled db cfg p hg he]
        obtain ⟨new, h1, _, h3, _⟩ := persist_rows_spec cfg.policy_id cfg.task_type
          (execute_task_generation_sql db cfg.task_gen_sql) db
        by_cases hok : (persist_rows cfg.policy_id cfg.task_type db
            (execute_task_generation_sql db cfg.task_gen_sql)).2.2 = true
        · rw [if_pos hok]
          exact ⟨new, h1, fun t ht => (h3 t ht).2.2⟩
        · rw [if_neg hok]
          exact ⟨new, h1, fun t ht => (h3 t ht).2.2⟩
      · have hd : p.is_enabled = false := by simpa using he
        rw [generate_seed_tasks_disabled db cfg
          (fun q hq => (Option.some.inj (hg ▸ hq)) ▸ hd)]
        exact ⟨[], by simp, by simp⟩

theorem should_be_active_nodup (db : DB) : (should_be_active db).Nodup := by
  unfold should_be_active
  exact List.nodup_dedup _

/-! Claim theorems. -/

/-- C1 counterexample: with two result rows and the second row's commit
raising, generate_seed_tasks leaves the one successfully persisted row
committed but returns 0, not 1 — the returned count does not equal the number
of rows persisted by the invocation. -/
theorem generate_count_not_persisted_counterexample :
    (generate_seed_tasks db_c1 cfg_c1).1 = 0 ∧
    db_c1.seed_tasks.length = 0 ∧
    (generate_seed_tasks db_c1 cfg_c1).2.seed_tasks.length = 1 ∧
    (execute_task_generation_sql db_c1 cfg_c1.task_gen_sql).length = 2 := by
  refine ⟨?_, ?_, ?_, ?_⟩ <;> decide

/-- C1 (amended): for an enabled policy, persistence is row-at-a-time: the
rows committed before a failing row stay committed (the store is extended by
exactly the persisted tasks), and when every row's commit succeeds the
returned count equals the number of rows read; but when the commit of some row
raises, the function returns 0 — not the number of previously persisted
rows. -/
theorem generate_seed_tasks_partial_persistence (db : DB)
    (cfg : PolicyTaskGenConfig) (p : PolicyConfig)
    (hg : get_policy_config db cfg.policy_id = some p)
    (he : p.is_enabled = true) :
    ∃ newTasks : List SeedTask,
      (generate_seed_tasks db cfg).2.seed_tasks = db.seed_tasks ++ newTasks ∧
      (∀ t ∈ newTasks, t.policy_id = cfg.policy_id ∧ t.task_type = cfg.task_type ∧
        t.is_consumed = false) ∧
      (generate_seed_tasks db cfg).1 =
        (if (persist_rows cfg.policy_id cfg.task_type db
              (execute_task_generation_sql db cfg.task_gen_sql)).2.2
         then newTasks.length else 0) ∧
      ((persist_rows cfg.policy_id cfg.task_type db
          (execute_task_generation_sql db cfg.task_gen_sql)).2.2 = true →
        newTasks.length = (execute_task_generation_sql db cfg.task_gen_sql).length) := by
  obtain ⟨new, h1, h2, h3, h4⟩ := persist_rows_spec cfg.policy_id cfg.task_type
    (execute_task_generation_sql db cfg.task_gen_sql) db
  rw [generate_seed_tasks_enabled db cfg p hg he]
  by_cases hok : (persist_rows cfg.policy_id cfg.task_type db
      (execute_task_generation_sql db cfg.task_gen_sql)).2.2 = true
  · rw [if_pos hok]
    refine ⟨new, h1, h3, ?_, fun _ => h2.trans (h4 hok)⟩
    rw [if_pos hok]
    exact h2.symm
  · rw [if_neg hok]
    refine ⟨new, h1, h3, ?_, fun hbad => absurd hbad hok⟩
    rw [if_neg hok]

theorem generate_seed_tasks_partial_persistence_witness :
    get_policy_config db_c1 cfg_c1.policy_id = some ⟨"p1", "postgres", true⟩ ∧
    (∃ newTasks : List SeedTask,
      (generate_seed_tasks db_c1 cfg_c1).2.seed_tasks = db_c1.seed_tasks ++ newTasks ∧
      (∀ t ∈ newTasks, t.policy_id = cfg_c1.policy_id ∧
        t.task_type = cfg_c1.task_type ∧ t.is_consumed = false) ∧
      (generate_seed_tasks db_c1 cfg_c1).1 =
        (if (persist_rows cfg_c1.policy_id cfg_c1.task_type db_c1
              (execute_task_generation_sql db_c1 cfg_c1.task_gen_sql)).2.2
         then newTasks.length else 0) ∧
      ((persist_rows cfg_c1.policy_id cfg_c1.task_type db_c1
          (execute_task_generation_sql db_c1 cfg_c1.task_gen_sql)).2.2 = true →
        newTasks.length =
          (execute_task_generation_sql db_c1 cfg_c1.task_gen_sql).length)) :=
  ⟨by decide,
   generate_seed_tasks_partial_persistence db_c1 cfg_c1 ⟨"p1", "postgres", true⟩
     (by decide) rfl⟩

/-- C2 counterexample: calling add_policy_job for a SCHEDULED config whose
cron expression does not parse returns false, but it does not leave the
registry unchanged — the job previously registered for that policy id has been
removed (removal happens before the cron expression is parsed). -/
theorem add_policy_job_bad_cron_counterexample :
    (add_policy_job crontab_five_fields reg_c2 cfg_c2).1 = false ∧
    get_active_policies reg_c2 = ["p1"] ∧
    get_active_policies (add_policy_job crontab_five_fields reg_c2 cfg_c2).2 = [] ∧
    (add_policy_job crontab_five_fields reg_c2 cfg_c2).2 ≠ reg_c2 := by
  refine ⟨?_, ?_, ?_, ?_⟩ <;> decide

/-- C2 (amended): for a SCHEDULED config whose cron expression fails to
parse, add_policy_job returns false and registers no job — the policy is not
active afterwards and the resulting state is exactly the state after removing
the policy's previous job; in particular, when no job was previously
registered for the policy id the registry is left unchanged.  (A previously
registered job for that id, however, is removed: removal precedes parsing.) -/
theorem add_policy_job_parse_failure (cronOk : String → Bool) (r : Registry)
    (cfg : PolicyTaskGenConfig) (hwf : WF r)
    (h1 : cfg.task_type = TaskType.SCHEDULED)
    (h2 : cronOk cfg.cron_expression = false) :
    (add_policy_job cronOk r cfg).1 = false ∧
    (add_policy_job cronOk r cfg).2 = remove_policy_job r cfg.policy_id ∧
    cfg.policy_id ∉ get_active_policies (add_policy_job cronOk r cfg).2 ∧
    (jobs_get r cfg.policy_id = none → (add_policy_job cronOk r cfg).2 = r) := by
  have he := add_policy_job_bad_cron cronOk r cfg h1 h2
  refine ⟨by rw [he], by rw [he], ?_, ?_⟩
  · rw [he]
    exact not_active_after_remove r _ hwf
  · intro hnone
    rw [he]
    exact remove_policy_job_noop r _ hnone

theorem add_policy_job_parse_failure_witness :
    WF reg_c2 ∧ cfg_c2.task_type = TaskType.SCHEDULED ∧
    crontab_five_fields cfg_c2.cron_expression = false ∧
    ((add_policy_job crontab_five_fields reg_c2 cfg_c2).1 = false ∧
     (add_policy_job crontab_five_fields reg_c2 cfg_c2).2 =
       remove_policy_job reg_c2 cfg_c2.policy_id ∧
     cfg_c2.policy_id ∉
       get_active_policies (add_policy_job crontab_five_fields reg_c2 cfg_c2).2 ∧
     (jobs_get reg_c2 cfg_c2.policy_id = none →
       (add_policy_job crontab_five_fields reg_c2 cfg_c2).2 = reg_c2)) :=
  ⟨by decide, rfl, by decide,
   add_policy_job_parse_failure crontab_five_fields reg_c2 cfg_c2 (by decide) rfl
     (by decide)⟩

/-- C3: for a ONE_TIME config, whenever handle_one_time_task_generation
returns a positive count, no pending (unconsumed) seed task for that policy
identifier remains afterwards; and when the policy is enabled, every commit
succeeds and the query yields three rows, the returned count is 3. -/
theorem handle_one_time_clears_pending (db : DB) (cfg : PolicyTaskGenConfig)
    (h : cfg.task_type = TaskType.ONE_TIME) :
    ((handle_one_time_task_generation db cfg).1 > 0 →
      get_pending_seed_tasks (handle_one_time_task_generation db cfg).2
        (some cfg.policy_id) = []) ∧
    (∀ p, get_policy_config db cfg.policy_id = some p → p.is_enabled = true →
      (persist_rows cfg.policy_id cfg.task_type db
        (execute_task_generation_sql db cfg.task_gen_sql)).2.2 = true →
      (execute_task_generation_sql db cfg.task_gen_sql).length = 3 →
      (handle_one_time_task_generation db cfg).1 = 3) := by
  constructor
  · intro hpos
    rw [handle_one_time_eq db cfg h] at hpos ⊢
    by_cases hres : (generate_seed_tasks db cfg).1 > 0
    · rw [if_pos hres]
      exact pending_cleared (generate_seed_tasks db cfg).2 cfg.policy_id
    · rw [if_neg hres] at hpos
      exact absurd hpos hres
  · intro p hg he hok hlen
    obtain ⟨new, h1, h2, h3, h4⟩ := persist_rows_spec cfg.policy_id cfg.task_type
      (execute_task_generation_sql db cfg.task_gen_sql) db
    have hgen1 : (generate_seed_tasks db cfg).1 = 3 := by
      rw [generate_seed_tasks_enabled db cfg p hg he, if_pos hok]
      rw [h4 hok, hlen]
    have hfst : (handle_one_time_task_generation db cfg).1 =
        (generate_seed_tasks db cfg).1 := by
      rw [handle_one_time_eq db cfg h]
      by_cases hres : (generate_seed_tasks db cfg).1 > 0
      · rw [if_pos hres]
      · rw [if_neg hres]
    rw [hfst, hgen1]

theorem handle_one_time_clears_pending_witness :
    cfg_c3.task_type = TaskType.ONE_TIME ∧
    (handle_one_time_task_generation db_c3 cfg_c3).1 = 3 ∧
    get_pending_seed_tasks (handle_one_time_task_generation db_c3 cfg_c3).2
      (some cfg_c3.policy_id) = [] :=
  ⟨rfl,
   (handle_one_time_clears_pending db_c3 cfg_c3 rfl).2 ⟨"imp", "postgres", true⟩
     (by decide) rfl (by decide) (by decide),
   (handle_one_time_clears_pending db_c3 cfg_c3 rfl).1 (by decide)⟩

/-- C4: when the policy's PolicyConfig record is absent or disabled,
generate_seed_tasks returns 0 and performs no writes (the db state is
unchanged), and the query is never executed: the result is the same whatever
the query backend would have answered. -/
theorem generate_seed_tasks_disabled_no_writes (db : DB)
    (cfg : PolicyTaskGenConfig)
    (h : ∀ p, get_policy_config db cfg.policy_id = some p →
      p.is_enabled = false) :
    generate_seed_tasks db cfg = (0, db) ∧
    ∀ qr, generate_seed_tasks { db with query_results := qr } cfg =
      (0, { db with query_results := qr }) :=
  ⟨generate_seed_tasks_disabled db cfg h,
   fun qr => generate_seed_tasks_disabled { db with query_results := qr } cfg h⟩

theorem generate_seed_tasks_disabled_no_writes_witness :
    (∀ p, get_policy_config db_c4 cfg_c4.policy_id = some p →
      p.is_enabled = false) ∧
    generate_seed_tasks db_c4 cfg_c4 = (0, db_c4) :=
  ⟨by decide,
   (generate_seed_tasks_disabled_no_writes db_c4 cfg_c4 (by decide)).1⟩

/-- C5: registering a job twice for the same policy identifier with parseable
cron expressions leaves at most one dict entry for that identifier, and the
scheduler's job count grows by at most one net entry relative to before the
first registration. -/
theorem add_policy_job_idempotent_replace (cronOk : String → Bool)
    (r : Registry) (cfg1 cfg2 : PolicyTaskGenConfig) (hwf : WF r)
    (hpid : cfg1.policy_id = cfg2.policy_id)
    (hok1 : cronOk cfg1.cron_expression = true)
    (hok2 : cronOk cfg2.cron_expression = true) :
    (jobs_for (add_policy_job cronOk (add_policy_job cronOk r cfg1).2 cfg2).2
      cfg2.policy_id).length ≤ 1 ∧
    get_job_count (add_policy_job cronOk (add_policy_job cronOk r cfg1).2 cfg2).2 ≤
      get_job_count r + 1 := by
  constructor
  · exact jobs_for_le_one_of_nodup _ _
      (WF_add cronOk _ cfg2 (WF_add cronOk r cfg1 hwf)).1
  · cases h1 : cfg1.task_type with
    | ONE_TIME =>
        rw [add_policy_job_one_time cronOk r cfg1 h1]
        exact get_job_count_add_le cronOk r cfg2
    | SCHEDULED =>
        have hex : ∃ j ∈ (add_policy_job cronOk r cfg1).2.sched_jobs,
            j.job_id = "policy_" ++ cfg2.policy_id := by
          rw [add_policy_job_good cronOk r cfg1 h1 hok1]
          refine ⟨⟨"policy_" ++ cfg1.policy_id, cfg1.policy_id,
            cfg1.cron_expression⟩, ?_, by rw [hpid]⟩
          show _ ∈ (jobs_set (scheduler_add_job _ _ _ _) _ _).sched_jobs
          simp [jobs_set, scheduler_add_job]
        exact (get_job_count_add_le_of_existing cronOk _ cfg2 hex).trans
          (get_job_count_add_le cronOk r cfg1)

theorem add_policy_job_idempotent_replace_witness :
    WF Registry.empty ∧ crontab_five_fields cfg_c5.cron_expression = true ∧
    ((jobs_for (add_policy_job crontab_five_fields
        (add_policy_job crontab_five_fields Registry.empty cfg_c5).2 cfg_c5).2
      cfg_c5.policy_id).length ≤ 1 ∧
     get_job_count (add_policy_job crontab_five_fields
        (add_policy_job crontab_five_fields Registry.empty cfg_c5).2 cfg_c5).2 ≤
       get_job_count Registry.empty + 1) :=
  ⟨by decide, by decide,
   add_policy_job_idempotent_replace crontab_five_fields Registry.empty cfg_c5
     cfg_c5 (by decide) rfl (by decide) (by decide)⟩

/-- C6: when executing the policy's query text fails (the backend raises:
syntax error, connectivity error, nonexistent table), generate_seed_tasks
treats the failure as an empty result set and returns 0 with the store
unchanged; being a total function, it raises nothing to its caller. -/
theorem generate_seed_tasks_query_failure (db : DB) (cfg : PolicyTaskGenConfig)
    (h : db.query_results cfg.task_gen_sql = none) :
    execute_task_generation_sql db cfg.task_gen_sql = [] ∧
    generate_seed_tasks db cfg = (0, db) := by
  refine ⟨execute_sql_failure db _ h, ?_⟩
  cases hg : get_policy_config db cfg.policy_id with
  | none =>
      unfold generate_seed_tasks
      rw [hg]
  | some p =>
      by_cases he : p.is_enabled = true
      · rw [generate_seed_tasks_enabled db cfg p hg he,
          execute_sql_failure db _ h]
        rfl
      · have hd : p.is_enabled = false := by simpa using he
        exact generate_seed_tasks_disabled db cfg
          (fun q hq => (Option.some.inj (hg ▸ hq)) ▸ hd)

theorem generate_seed_tasks_query_failure_witness :
    db_c6.query_results cfg_c6.task_gen_sql = none ∧
    (execute_task_generation_sql db_c6 cfg_c6.task_gen_sql = [] ∧
     generate_seed_tasks db_c6 cfg_c6 = (0, db_c6)) :=
  ⟨rfl, generate_seed_tasks_query_failure db_c6 cfg_c6 rfl⟩

/-- C7: in every well-formed (in particular, every reachable) registry state,
after remove_policy_job returns, the policy id is no longer among the active
policy ids; and when no job was registered for the id, the call is a no-op
leaving the registry unchanged. -/
theorem remove_policy_job_spec (r : Registry) (pid : String) (hwf : WF r) :
    pid ∉ get_active_policies (remove_policy_job r pid) ∧
    (jobs_get r pid = none → remove_policy_job r pid = r) :=
  ⟨not_active_after_remove r pid hwf, remove_policy_job_noop r pid⟩

theorem remove_policy_job_spec_witness :
    WF reg_c2 ∧
    ("p1" ∉ get_active_policies (remove_policy_job reg_c2 ("p1")) ∧
     (jobs_get reg_c2 ("p1") = none → remove_policy_job reg_c2 ("p1") = reg_c2)) :=
  ⟨by decide, remove_policy_job_spec reg_c2 ("p1") (by decide)⟩

/-- C8 counterexample: a store with exactly one enabled SCHEDULED policy p8
whose cron expression does not parse, run against an empty registry: p8 is in
desired minus current, yet after the reconciliation cycle the active set is
still empty — the cycle does not register a job for every id in desired minus
current. -/
theorem monitor_cycle_counterexample :
    should_be_active db_c8 = ["p8"] ∧
    get_active_policies Registry.empty = [] ∧
    get_active_policies
      (monitor_cycle crontab_five_fields db_c8 Registry.empty) = [] := by
  refine ⟨?_, ?_, ?_⟩ <;> decide

/-- C8 (amended): a reconciliation cycle computes desired from the config
rows it loads — the first 100, crud.get_policy_task_gen_configs' default
page — and attempts registration for each id in desired minus current; the
attempt registers the id exactly when its first stored generation config is
SCHEDULED with a parseable cron expression: ids with such a config are active
after the cycle (in particular, when exactly one policy is enabled+SCHEDULED
with a parseable cron and no job exists, it is active after the cycle), while
an inactive id whose first config is missing, ONE_TIME or unparseable stays
inactive; and each id in current minus desired is removed and not active
after the cycle. -/
theorem monitor_cycle_reconciles (cronOk : String → Bool) (db : DB)
    (r : Registry) (hwf : WF r) :
    (∀ pid, pid ∈ should_be_active db → pid ∉ get_active_policies r →
      (∃ cfg, get_policy_task_gen_config db pid = some cfg ∧
        cfg.task_type = TaskType.SCHEDULED ∧ cronOk cfg.cron_expression = true) →
      pid ∈ get_active_policies (monitor_cycle cronOk db r)) ∧
    (∀ pid, pid ∈ get_active_policies r → pid ∉ should_be_active db →
      pid ∉ get_active_policies (monitor_cycle cronOk db r)) ∧
    (∀ pid, pid ∉ get_active_policies r →
      (∀ cfg, get_policy_task_gen_config db pid = some cfg →
        cfg.task_type = TaskType.ONE_TIME ∨ cronOk cfg.cron_expression = false) →
      pid ∉ get_active_policies (monitor_cycle cronOk db r)) := by
  refine ⟨?_, ?_, ?_⟩
  · intro pid hdes hnact hcfg
    have hCA : pid ∉ (get_active_policies r).dedup := by
      simpa [List.mem_dedup] using hnact
    have hnew : pid ∈ (should_be_active db).filter
        (fun q => !((get_active_policies r).dedup.contains q)) :=
      List.mem_filter.2 ⟨hdes, by simpa using hCA⟩
    have hnd : ((should_be_active db).filter
        (fun q => !((get_active_policies r).dedup.contains q))).Nodup :=
      List.Nodup.filter _ (should_be_active_nodup db)
    have h1 : pid ∈ get_active_policies (add_new_policies cronOk db
        ((should_be_active db).filter
          (fun q => !((get_active_policies r).dedup.contains q))) r) :=
      active_add_new_mem cronOk db _ r pid hnd hnew hcfg
    have hrem : pid ∉ (get_active_policies r).dedup.filter
        (fun q => !((should_be_active db).contains q)) := by
      intro hbad
      exact hCA (List.mem_filter.1 hbad).1
    exact (active_remove_fold_other _ _ pid hrem).2 h1
  · intro pid hact hndes
    have hCA : pid ∈ (get_active_policies r).dedup := List.mem_dedup.2 hact
    have hnnew : pid ∉ (should_be_active db).filter
        (fun q => !((get_active_policies r).dedup.contains q)) := by
      intro hbad
      exact hndes (List.mem_filter.1 hbad).1
    have h1 : pid ∈ get_active_policies (add_new_policies cronOk db
        ((should_be_active db).filter
          (fun q => !((get_active_policies r).dedup.contains q))) r) :=
      (active_add_new_other cronOk db _ r pid hnnew).2 hact
    have hrem : pid ∈ (get_active_policies r).dedup.filter
        (fun q => !((should_be_active db).contains q)) :=
      List.mem_filter.2 ⟨hCA, by simpa using hndes⟩
    have hwf1 : WF (add_new_policies cronOk db
        ((should_be_active db).filter
          (fun q => !((get_active_policies r).dedup.contains q))) r) :=
      WF_add_new cronOk db _ r hwf
    exact active_remove_fold_mem _ _ pid hwf1 hrem
  · intro pid hnact hbadcfg
    have h1 : pid ∉ get_active_policies (add_new_policies cronOk db
        ((should_be_active db).filter
          (fun q => !((get_active_policies r).dedup.contains q))) r) :=
      active_add_new_not_registered cronOk db _ r pid hbadcfg hnact
    intro hmem
    exact h1 (active_remove_fold_subset _ _ pid hmem)

theorem monitor_cycle_reconciles_witness :
    WF Registry.empty ∧ "p8" ∈ should_be_active db_c8w ∧
    "p8" ∉ get_active_policies Registry.empty ∧
    "p8" ∈ get_active_policies
      (monitor_cycle crontab_five_fields db_c8w Registry.empty) :=
  ⟨by decide, by decide, by decide,
   (monitor_cycle_reconciles crontab_five_fields db_c8w Registry.empty
      (by decide)).1 ("p8") (by decide) (by decide)
     ⟨⟨"p8", "SELECT a FROM t", "0 2 * * *", TaskType.SCHEDULED⟩, by decide, rfl,
      by decide⟩⟩

/-- C9: a seed task's consumed flag only ever goes from false to true — the
tasks after mark_seed_task_consumed stand in positional correspondence with
the tasks before, with ids and policy ids unchanged and consumed flags only
raised; marking is idempotent per task id (repeating it yields the same
result and the same state); and generation only appends fresh unconsumed
tasks, never touching existing flags. -/
theorem mark_seed_task_consumed_monotone_idempotent (db : DB) (task_id : Nat) :
    List.Forall₂
      (fun a b => a.id = b.id ∧ a.policy_id = b.policy_id ∧
        (a.is_consumed = true → b.is_consumed = true))
      db.seed_tasks (mark_seed_task_consumed db task_id).2.seed_tasks ∧
    mark_seed_task_consumed (mark_seed_task_consumed db task_id).2 task_id =
      mark_seed_task_consumed db task_id ∧
    ∀ cfg, ∃ newTasks : List SeedTask,
      (generate_seed_tasks db cfg).2.seed_tasks = db.seed_tasks ++ newTasks ∧
      ∀ t ∈ newTasks, t.is_consumed = false :=
  ⟨mark_monotone db task_id, mark_idempotent db task_id,
   fun cfg => generate_seed_tasks_append db cfg⟩

/-- C10: add_policy_job on a ONE_TIME config returns true while leaving the
registry totally unchanged — no job added, none removed, same active ids and
same job count. -/
theorem add_policy_job_one_time_unchanged (cronOk : String → Bool)
    (r : Registry) (cfg : PolicyTaskGenConfig)
    (h : cfg.task_type = TaskType.ONE_TIME) :
    add_policy_job cronOk r cfg = (true, r) ∧
    get_active_policies (add_policy_job cronOk r cfg).2 =
      get_active_policies r ∧
    get_job_count (add_policy_job cronOk r cfg).2 = get_job_count r := by
  have he := add_policy_job_one_time cronOk r cfg h
  exact ⟨he, by rw [he], by rw [he]⟩

theorem add_policy_job_one_time_unchanged_witness :
    cfg_c10.task_type = TaskType.ONE_TIME ∧
    (add_policy_job crontab_five_fields reg_c2 cfg_c10 = (true, reg_c2) ∧
     get_active_policies (add_policy_job crontab_five_fields reg_c2 cfg_c10).2 =
       get_active_policies reg_c2 ∧
     get_job_count (add_policy_job crontab_five_fields reg_c2 cfg_c10).2 =
       get_job_count reg_c2) :=
  ⟨rfl, add_policy_job_one_time_unchanged crontab_five_fields reg_c2 cfg_c10 rfl⟩

end TaskGenerator
